import Mathlib

/-!
Formal model of the matching and fulfillment core of the BloodSync blood-bank
application (src/app.py, with the mirrored algorithm in src/app_aws.py).
All definitions below are transcribed from the Python source; line references
point into src/app.py unless stated otherwise.  Free-text identity and contact
fields that no verified operation reads, and the uuid-generated identifiers,
are elided from the records.
-/

/-- The eight ABO/Rh blood groups handled by the application. -/
inductive BloodGroup
  | Apos | Aneg | Bpos | Bneg | ABpos | ABneg | Opos | Oneg
deriving DecidableEq, Fintype

open BloodGroup

/-- BLOOD_COMPATIBILITY (app.py lines 74-83, app_aws.py lines 93-102):
donor blood group to the recipient groups that donor may give to. -/
def BLOOD_COMPATIBILITY : BloodGroup → List BloodGroup
  | Apos => [Apos, ABpos]
  | Aneg => [Apos, Aneg, ABpos, ABneg]
  | Bpos => [Bpos, ABpos]
  | Bneg => [Bpos, Bneg, ABpos, ABneg]
  | ABpos => [ABpos]
  | ABneg => [ABpos, ABneg]
  | Opos => [Opos, Apos, Bpos, ABpos]
  | Oneg => [Opos, Oneg, Apos, Aneg, Bpos, Bneg, ABpos, ABneg]

/-- RECEIVE_COMPATIBILITY (app.py lines 86-95, app_aws.py lines 104-113):
recipient blood group to the donor groups it may receive from. -/
def RECEIVE_COMPATIBILITY : BloodGroup → List BloodGroup
  | Apos => [Apos, Aneg, Opos, Oneg]
  | Aneg => [Aneg, Oneg]
  | Bpos => [Bpos, Bneg, Opos, Oneg]
  | Bneg => [Bneg, Oneg]
  | ABpos => [Apos, Aneg, Bpos, Bneg, ABpos, ABneg, Opos, Oneg]
  | ABneg => [Aneg, Bneg, ABneg, Oneg]
  | Opos => [Opos, Oneg]
  | Oneg => [Oneg]

/-- Calendar date, the denotation of a "YYYY-MM-DD" string accepted by
datetime.strptime. -/
structure Date where
  year : Nat
  month : Nat
  day : Nat
deriving DecidableEq

/-- Gregorian leap-year rule used by Python's datetime. -/
def isLeap (y : Nat) : Bool := y % 4 == 0 && (y % 100 != 0 || y % 400 == 0)

/-- Length of a month, as enforced by the datetime constructor. -/
def daysInMonth (y m : Nat) : Nat :=
  match m with
  | 1 => 31
  | 2 => if isLeap y then 29 else 28
  | 3 => 31
  | 4 => 30
  | 5 => 31
  | 6 => 30
  | 7 => 31
  | 8 => 31
  | 9 => 30
  | 10 => 31
  | 11 => 30
  | 12 => 31
  | _ => 0

/-- Range conditions the datetime constructor enforces (MINYEAR..MAXYEAR and
month/day bounds); strptime raises ValueError outside them. -/
def validDate (dt : Date) : Bool :=
  decide (1 ≤ dt.year) && decide (dt.year ≤ 9999) &&
    decide (1 ≤ dt.month) && decide (dt.month ≤ 12) &&
    decide (1 ≤ dt.day) && decide (dt.day ≤ daysInMonth dt.year dt.month)

/-- Split a character list at every '-' separator, mirroring the field
structure of the "%Y-%m-%d" format string. -/
def splitDash : List Char → List (List Char)
  | [] => [[]]
  | c :: cs =>
    if c = '-' then [] :: splitDash cs
    else
      match splitDash cs with
      | [] => [[c]]
      | g :: gs => (c :: g) :: gs

/-- Numeric field of bounded width: strptime's %Y matches exactly four digits,
%m and %d match one or two digits. -/
def parseField (minLen maxLen : Nat) (cs : List Char) : Option Nat :=
  if decide (minLen ≤ cs.length) && decide (cs.length ≤ maxLen) && cs.all Char.isDigit then
    some (cs.foldl (fun acc c => acc * 10 + (c.toNat - '0'.toNat)) 0)
  else none

/-- Model of datetime.strptime(s, "%Y-%m-%d"): none exactly when Python raises
(wrong field structure, non-digit or out-of-range component). -/
def parseDate (s : String) : Option Date :=
  match splitDash s.data with
  | [ys, ms, ds] =>
    match parseField 4 4 ys, parseField 1 2 ms, parseField 1 2 ds with
    | some y, some m, some d => if validDate ⟨y, m, d⟩ then some ⟨y, m, d⟩ else none
    | _, _, _ => none
  | _ => none

/-- Days in the year strictly before month m. -/
def daysBeforeMonth (y m : Nat) : Nat :=
  let base :=
    match m with
    | 1 => 0
    | 2 => 31
    | 3 => 59
    | 4 => 90
    | 5 => 120
    | 6 => 151
    | 7 => 181
    | 8 => 212
    | 9 => 243
    | 10 => 273
    | 11 => 304
    | 12 => 334
    | _ => 0
  if isLeap y && decide (3 ≤ m) then base + 1 else base

/-- Proleptic-Gregorian day index; on valid dates differences agree with
Python's (a - b).days for midnight datetimes. -/
def dateOrdinal (dt : Date) : Nat :=
  let y := dt.year - 1
  365 * y + y / 4 - y / 100 + y / 400 + daysBeforeMonth dt.year dt.month + (dt.day - 1)

/-- Signed day count from `last` to `now`, i.e. (now - last).days. -/
def daysSince (now last : Date) : Int := (dateOrdinal now : Int) - (dateOrdinal last : Int)

/-- Python truthiness test applied to a stored date string: only the empty
string is falsy. -/
def strFalsy (s : String) : Bool := s.data.isEmpty

/-- can_donate (app.py lines 150-158, app_aws.py lines 271-278): the 56-day
cooldown check; a missing or unparseable stored date yields true. -/
def can_donate (last_donation_date : Option String) (now : Date) : Bool :=
  match last_donation_date with
  | none => true
  | some s =>
    if strFalsy s then true
    else
      match parseDate s with
      | some last => decide (56 ≤ daysSince now last)
      | none => true

/-- Donor record, restricted to the fields the matching and ledger code reads.
Mirrors the dict built at registration (app.py lines 443-464): available is a
Bool, status a string ("active"), last_donation a nullable date string. -/
structure Donor where
  donor_id : String
  blood_group : BloodGroup
  available : Bool
  status : String
  city : String
  state : String
  age : Int
  last_donation : Option String
  total_donations : Int
deriving DecidableEq

/-- calculate_donor_eligibility (app.py lines 160-191, app_aws.py lines
280-301), transcribed statement by statement: base 100, age branch, the
availability penalty, the last-donation branch (Python truthiness: None and ""
both take the new-donor +10 branch, an unparseable string is swallowed by the
except and adds nothing), the donation-history bonus, and the final clamp. -/
def calculate_donor_eligibility (donor : Donor) (now : Date) : Int :=
  let score : Int := 100
  let score :=
    if 25 ≤ donor.age ∧ donor.age ≤ 45 then score + 10
    else if donor.age < 18 ∨ donor.age > 65 then score - 50
    else score
  let score := if donor.available then score else score - 100
  let score :=
    match donor.last_donation with
    | none => score + 10
    | some s =>
      if strFalsy s then score + 10
      else
        match parseDate s with
        | none => score
        | some last => if 90 < daysSince now last then score + 5 else score
  let score := score + min (donor.total_donations * 2) 20
  max 0 (min score 150)

/-- Score formula exactly as claim C9 states it: the +10 new-donor bonus is
keyed on last_donation being null, every other set value either earns the +5
recency bonus (parseable and more than 90 days old) or nothing. -/
def eligibilityScoreClaim (donor : Donor) (now : Date) : Int :=
  max 0 (min
    (100
      + (if 25 ≤ donor.age ∧ donor.age ≤ 45 then 10 else 0)
      + (if donor.age < 18 ∨ donor.age > 65 then -50 else 0)
      + (if donor.available then 0 else -100)
      + (match donor.last_donation with
         | none => 10
         | some s =>
           match parseDate s with
           | some last => if 90 < daysSince now last then 5 else 0
           | none => 0)
      + min (donor.total_donations * 2) 20)
    150)

/-- Score formula of claim C9 amended at the one point the code differs: the
+10 bonus also fires for an empty (Python-falsy) last_donation string. -/
def eligibilityScoreAmended (donor : Donor) (now : Date) : Int :=
  max 0 (min
    (100
      + (if 25 ≤ donor.age ∧ donor.age ≤ 45 then 10 else 0)
      + (if donor.age < 18 ∨ donor.age > 65 then -50 else 0)
      + (if donor.available then 0 else -100)
      + (match donor.last_donation with
         | none => 10
         | some s =>
           if strFalsy s then 10
           else
             match parseDate s with
             | some last => if 90 < daysSince now last then 5 else 0
             | none => 0)
      + min (donor.total_donations * 2) 20)
    150)

/-- Donor whose stored last_donation is the empty string, the input separating
claim C9's formula from the code. -/
def emptyLastDonor : Donor :=
  { donor_id := "DON-X", blood_group := Apos, available := true, status := "active",
    city := "", state := "", age := 30, last_donation := some "", total_donations := 0 }

/-- Blood request record, restricted to the fields the ledger reads. reqType
models the optional 'type' dict key, present only on inventory-withdrawal
requests; location models the optional 'location' key (dict.get default ""). -/
structure BloodRequest where
  blood_group : BloodGroup
  units_needed : Int
  fulfilled_units : Int
  inventory_used : Int
  status : String
  urgency : String
  location : String
  reqType : Option String
deriving DecidableEq

/-- blood_inventory as an association list blood group to unit count (the list
of contributing donor ids carried in each entry is read by no verified
operation and is elided). -/
abbrev Inventory := List (BloodGroup × Int)

/-- First inventory entry for a group, i.e. blood_inventory.get(bg). -/
def invLookup : Inventory → BloodGroup → Option Int
  | [], _ => none
  | p :: t, g => if p.1 = g then some p.2 else invLookup t g

/-- blood_inventory.get(bg, {}).get('units', 0). -/
def invUnits (inv : Inventory) (g : BloodGroup) : Int := (invLookup inv g).getD 0

/-- Rewrite the units of the entries for one blood group, leaving every other
entry alone: the in-place dict assignment blood_inventory[bg]['units'] = v. -/
def bumpEntry (g : BloodGroup) (f : Int → Int) (p : BloodGroup × Int) : BloodGroup × Int :=
  if p.1 = g then (p.1, f p.2) else p

/-- update_inventory (app.py lines 294-300): a no-op when the group is absent,
otherwise an unchecked addition or a subtraction clamped at zero. -/
def update_inventory (inv : Inventory) (blood_group : BloodGroup) (units : Int)
    (add : Bool) : Inventory :=
  if (invLookup inv blood_group).isSome then
    inv.map (bumpEntry blood_group (fun v => if add then v + units else max 0 (v - units)))
  else inv

/-- Credit delta units to a request and recompute its status: the block at
app.py lines 736-743 of donor_confirm_donation; the identical block appears at
lines 1134-1144 of use_inventory_for_request. -/
def creditRequest (r : BloodRequest) (delta : Int) : BloodRequest :=
  let fu := r.fulfilled_units + delta
  { r with fulfilled_units := fu,
           status := if r.units_needed - fu ≤ 0 then "fulfilled" else "partial" }

/-- Request-record update performed by donor_confirm_donation (app.py lines
736-749): the credit plus, when the donor's blood group has an inventory
entry, the inventory_used bump done inside that if-block. -/
def confirmRequestUpdate (r : BloodRequest) (units : Int) (invHasGroup : Bool) :
    BloodRequest :=
  let r₁ := creditRequest r units
  if invHasGroup then { r₁ with inventory_used := r₁.inventory_used + units } else r₁

/-- use_inventory_for_request (app.py lines 1113-1146), with the request-id
lookup step elided: acts on the given request and the inventory. The second
component is the flashed error, none on success. -/
def use_inventory_for_request (inv : Inventory) (r : BloodRequest)
    (units_from_inventory : Int) : (Inventory × BloodRequest) × Option String :=
  let available := invUnits inv r.blood_group
  if available < units_from_inventory then ((inv, r), some "Not enough inventory!")
  else
    let inv' := update_inventory inv r.blood_group units_from_inventory false
    ((inv', { creditRequest r units_from_inventory with
              inventory_used := r.inventory_used + units_from_inventory }), none)

/-- fulfill_request, the legacy route (app.py lines 1279-1302): credit, set
status by fulfilled_units >= units_needed, then debit inventory (clamped). -/
def fulfill_request (inv : Inventory) (r : BloodRequest) (units_fulfilled : Int) :
    Inventory × BloodRequest :=
  let fu := r.fulfilled_units + units_fulfilled
  let r' := { r with fulfilled_units := fu,
                     status := if r.units_needed ≤ fu then "fulfilled" else "partial" }
  (update_inventory inv r.blood_group units_fulfilled false, r')

/-- Fresh request created by request_blood (app.py lines 995-1022): status
pending, fulfilled_units 0, units_needed taken from the form unvalidated. -/
def freshRequest (g : BloodGroup) (needed : Int) (urg loc : String) : BloodRequest :=
  { blood_group := g, units_needed := needed, fulfilled_units := 0, inventory_used := 0,
    status := "pending", urgency := urg, location := loc, reqType := none }

/-- Synthetic request created by take_from_inventory (app.py lines 909-933):
immediately fulfilled, fulfilled_units = units_needed, type
inventory_withdrawal. -/
def withdrawalRequest (g : BloodGroup) (units : Int) : BloodRequest :=
  { blood_group := g, units_needed := units, fulfilled_units := units, inventory_used := 0,
    status := "fulfilled", urgency := "normal", location := "",
    reqType := some "inventory_withdrawal" }

/-- States a single blood request can reach under the ledger operations:
creation by request_blood (no validation of units_needed), creation by
take_from_inventory (units validated positive), and the three credit paths
(donor_confirm_donation, use_inventory_for_request with sufficient stock, and
the legacy fulfill_request), each with a non-negative caller-supplied delta. -/
inductive ReqReachable : BloodRequest → Prop
  | create (g : BloodGroup) (needed : Int) (urg loc : String) :
      ReqReachable (freshRequest g needed urg loc)
  | withdraw (g : BloodGroup) (units : Int) (h : 1 ≤ units) :
      ReqReachable (withdrawalRequest g units)
  | confirm (r : BloodRequest) (d : Int) (b : Bool) (hr : ReqReachable r) (hd : 0 ≤ d) :
      ReqReachable (confirmRequestUpdate r d b)
  | useInventory (r : BloodRequest) (d : Int) (inv : Inventory) (hr : ReqReachable r)
      (hd : 0 ≤ d) (hok : d ≤ invUnits inv r.blood_group) :
      ReqReachable ((use_inventory_for_request inv r d).1.2)
  | legacy (r : BloodRequest) (d : Int) (inv : Inventory) (hr : ReqReachable r)
      (hd : 0 ≤ d) :
      ReqReachable ((fulfill_request inv r d).2)

/-- Status transition rule exactly as claim C1 states it, including the case
that keeps the old (pending) status when nothing has been fulfilled. -/
def claimStatusRule (units_needed fulfilled_units : Int) (old : String) : String :=
  if units_needed - fulfilled_units ≤ 0 then "fulfilled"
  else if 0 < fulfilled_units then "partial"
  else old

/-- Pending request needing 5 units with nothing fulfilled: the input on which
claim C1's transition rule differs from the code. -/
def pendingReq5 : BloodRequest := freshRequest Apos 5 "normal" ""

/-- Donation ledger record, restricted to the fields the claims mention.
status models the optional 'status' dict key: the inventory paths write
"completed", the legacy record_donation route writes no status at all. -/
structure Donation where
  donor_id : String
  blood_group : BloodGroup
  units : Int
  status : Option String
deriving DecidableEq

/-- Requestor record, reduced to the running request counter. -/
structure Requestor where
  total_requests : Int
deriving DecidableEq

/-- The stores take_from_inventory touches. -/
structure WithdrawState where
  inventory : Inventory
  requests : List BloodRequest
  donations : List Donation
  requestor : Requestor
deriving DecidableEq

/-- take_from_inventory (app.py lines 877-968), with form parsing and the
requestor lookup elided: validations in source order (unknown blood group,
non-positive units, insufficient stock — the flashed insufficiency message is
an f-string, abbreviated here), then the synthetic fulfilled request, the
inventory debit, the requestor counter bump and the INVENTORY donation. -/
def take_from_inventory (st : WithdrawState) (blood_group : BloodGroup)
    (units_needed : Int) : WithdrawState × Option String :=
  if (invLookup st.inventory blood_group).isNone then (st, some "Invalid blood group!")
  else if units_needed ≤ 0 then (st, some "Units must be greater than 0!")
  else if invUnits st.inventory blood_group < units_needed then
    (st, some "insufficient inventory")
  else
    ({ inventory := update_inventory st.inventory blood_group units_needed false,
       requests := st.requests ++ [withdrawalRequest blood_group units_needed],
       donations := st.donations ++
         [{ donor_id := "INVENTORY", blood_group := blood_group, units := units_needed,
            status := some "completed" }],
       requestor := { total_requests := st.requestor.total_requests + 1 } },
     none)

/-- Withdraw-state with 10 units of O- in stock, the spec's scenario. -/
def wst0 : WithdrawState :=
  { inventory := [(Oneg, 10)], requests := [], donations := [], requestor := ⟨0⟩ }

/-- The three inventory mutations the application performs: update_inventory
'add' (record_donation, donate_to_inventory), update_inventory 'remove' /
the identical inline clamp of donor_confirm_donation (lines 745-749), and the
ensure-entry step of donor registration (lines 480-481). -/
inductive InvOp
  | add (g : BloodGroup) (u : Int)
  | removeClamped (g : BloodGroup) (u : Int)
  | ensure (g : BloodGroup)
deriving DecidableEq

/-- Apply one inventory mutation. -/
def applyInvOp (inv : Inventory) : InvOp → Inventory
  | InvOp.add g u => update_inventory inv g u true
  | InvOp.removeClamped g u => update_inventory inv g u false
  | InvOp.ensure g => if (invLookup inv g).isSome then inv else inv ++ [(g, 0)]

/-- Every unit count in the inventory is non-negative. -/
def invNonneg (inv : Inventory) : Prop := ∀ p ∈ inv, 0 ≤ p.2

/-- The caller-supplied delta of the operation is non-negative (claim C6's
standing assumption); subtractions are clamped so they need no assumption. -/
def opDeltaNonnegB : InvOp → Bool
  | InvOp.add _ u => decide (0 ≤ u)
  | InvOp.removeClamped _ _ => true
  | InvOp.ensure _ => true

/-- Donor-to-request assignment (app.py lines 691-700), reduced to the fields
donor_confirm_donation reads and writes. -/
structure Assignment where
  donor_id : String
  request_id : String
  units_offered : Int
  status : String
  units_donated : Option Int
deriving DecidableEq

/-- First value stored under a key: dict.get(k) for the id-keyed stores. -/
def lookupA {α : Type} : List (String × α) → String → Option α
  | [], _ => none
  | p :: t, k => if p.1 = k then some p.2 else lookupA t k

/-- In-place update of the record stored under a key. -/
def updateA {α : Type} (l : List (String × α)) (k : String) (f : α → α) :
    List (String × α) :=
  l.map (fun p => if p.1 = k then (p.1, f p.2) else p)

/-- The id-keyed stores the donation routes touch. -/
structure SysState where
  donors : List (String × Donor)
  requests : List (String × BloodRequest)
  assignments : List (String × Assignment)
  donations : List Donation
  inventory : Inventory
deriving DecidableEq

/-- One decimal digit as a character. -/
def digitChar (n : Nat) : Char := Char.ofNat ('0'.toNat + n % 10)

/-- Two-digit zero-padded field of strftime. -/
def pad2 (n : Nat) : List Char := [digitChar (n / 10), digitChar n]

/-- Four-digit zero-padded field of strftime. -/
def pad4 (n : Nat) : List Char :=
  [digitChar (n / 1000), digitChar (n / 100), digitChar (n / 10), digitChar n]

/-- strftime('%Y-%m-%d') for the dates the application stores. -/
def formatDate (dt : Date) : String :=
  ⟨pad4 dt.year ++ '-' :: pad2 dt.month ++ '-' :: pad2 dt.day⟩

/-- donor_confirm_donation (app.py lines 710-781), with form parsing elided:
units_form models request.form.get('units_donated', assignment's
units_offered).  No eligibility (56-day) check appears anywhere on this path.
The inventory block (lines 745-749) clamps exactly like update_inventory
'remove' and bumps the request's inventory_used only when the donor's group
has an inventory entry, as modelled by confirmRequestUpdate. -/
def donor_confirm_donation (st : SysState) (assignment_id : String)
    (units_form : Option Int) (now : Date) : SysState × Option String :=
  match lookupA st.assignments assignment_id with
  | none => (st, some "Assignment not found!")
  | some asg =>
    match lookupA st.donors asg.donor_id, lookupA st.requests asg.request_id with
    | some donor, some reqData =>
      let units_donated := units_form.getD asg.units_offered
      let asg' := { asg with status := "completed", units_donated := some units_donated }
      let invHas := (invLookup st.inventory donor.blood_group).isSome
      let req' := confirmRequestUpdate reqData units_donated invHas
      let inv' := update_inventory st.inventory donor.blood_group units_donated false
      let donor' := { donor with last_donation := some (formatDate now),
                                 total_donations := donor.total_donations + 1 }
      let don : Donation := { donor_id := asg.donor_id, blood_group := donor.blood_group,
                              units := units_donated, status := some "completed" }
      ({ donors := updateA st.donors asg.donor_id (fun _ => donor'),
         requests := updateA st.requests asg.request_id (fun _ => req'),
         assignments := updateA st.assignments assignment_id (fun _ => asg'),
         donations := st.donations ++ [don],
         inventory := inv' }, none)
    | _, _ => (st, some "Invalid data!")

/-- donate_to_inventory (app.py lines 607-673), with form parsing elided: the
eligibility check comes first (line 617), then the 1..50 units validation; on
success the donation is recorded, donor stats updated and inventory credited.
The donor-id bookkeeping list inside the inventory entry is elided. -/
def donate_to_inventory (st : SysState) (donor_id : String) (units : Int)
    (now : Date) : SysState × Option String :=
  match lookupA st.donors donor_id with
  | none => (st, some "Donor not found!")
  | some donor =>
    if can_donate donor.last_donation now then
      if units ≤ 0 ∨ 50 < units then (st, some "Units must be between 1 and 50!")
      else
        let don : Donation := { donor_id := donor_id, blood_group := donor.blood_group,
                                units := units, status := some "completed" }
        let donor' := { donor with last_donation := some (formatDate now),
                                   total_donations := donor.total_donations + 1 }
        ({ st with donations := st.donations ++ [don],
                   donors := updateA st.donors donor_id (fun _ => donor'),
                   inventory := update_inventory st.inventory donor.blood_group units true },
         none)
    else (st, some "You must wait 56 days between donations!")

/-- record_donation, the direct donation route (app.py lines 562-603): the
eligibility check at line 570 guards the whole operation; the donation dict
written here carries no 'status' key. -/
def record_donation (st : SysState) (donor_id : String) (units : Int)
    (now : Date) : SysState × Option String :=
  match lookupA st.donors donor_id with
  | none => (st, some "Donor not found!")
  | some donor =>
    if can_donate donor.last_donation now then
      let don : Donation := { donor_id := donor_id, blood_group := donor.blood_group,
                              units := units, status := none }
      let donor' := { donor with last_donation := some (formatDate now),
                                 total_donations := donor.total_donations + 1 }
      ({ st with donations := st.donations ++ [don],
                 donors := updateA st.donors donor_id (fun _ => donor'),
                 inventory := update_inventory st.inventory donor.blood_group units true },
       none)
    else (st, some "You must wait 56 days between donations!")

/-- Donor who last donated on 2024-01-01, ten days before the `now` used in
the cooldown scenario below. -/
def donorD1 : Donor :=
  { donor_id := "D1", blood_group := Apos, available := true, status := "active",
    city := "Mumbai", state := "MH", age := 30, last_donation := some "2024-01-01",
    total_donations := 2 }

/-- Accepted assignment of donor D1 to request R1 offering two units. -/
def asgA1 : Assignment :=
  { donor_id := "D1", request_id := "R1", units_offered := 2, status := "accepted",
    units_donated := none }

/-- System state with one donor, one open request and one accepted
assignment. -/
def st10 : SysState :=
  { donors := [("D1", donorD1)], requests := [("R1", freshRequest Apos 5 "high" "")],
    assignments := [("A1", asgA1)], donations := [], inventory := [(Apos, 50)] }

/-- Code-point lexicographic order on character lists, Python's string
comparison. -/
def charsLeB : List Char → List Char → Bool
  | [], _ => true
  | _ :: _, [] => false
  | a :: as, b :: bs => if a = b then charsLeB as bs else decide (a.val < b.val)

/-- Python's a <= b on strings. -/
def strLeB (a b : String) : Bool := charsLeB a.data b.data

/-- Python's substring test `pat in hay`. -/
def strContains (hay pat : String) : Bool :=
  (List.range (hay.data.length + 1)).any (fun i => pat.data.isPrefixOf (hay.data.drop i))

/-- Python's str.lower() (ASCII-faithful). -/
def strLower (s : String) : String := ⟨s.data.map Char.toLower⟩

/-- Sort key (x.get('last_donation') or '1900-01-01') of app.py line 147. -/
def sortKeyLast : Option String → String
  | none => "1900-01-01"
  | some s => if strFalsy s then "1900-01-01" else s

/-- Location filter of get_compatible_donors (app.py lines 138-141):
case-insensitive containment in the donor's city or state. -/
def locationKeeps (location : String) (d : Donor) : Bool :=
  strContains (strLower d.city) (strLower location) ||
    strContains (strLower d.state) (strLower location)

/-- get_compatible_donors (app.py lines 126-148, app_aws.py lines 303-315):
keep donors whose group may give to the recipient, available and active, and
matching the location when one is given (Python-truthy); then sort by the
last-donation key descending.  Python's list.sort with reverse=True is a
stable descending sort, modelled by mergeSort on the flipped comparison. -/
def get_compatible_donors (donors : List Donor) (recipient_blood_group : BloodGroup)
    (location : String) : List Donor :=
  let compatible_blood_groups := RECEIVE_COMPATIBILITY recipient_blood_group
  let picked := donors.filter (fun d =>
    compatible_blood_groups.contains d.blood_group && d.available &&
      (d.status == "active") &&
      (if strFalsy location then true else locationKeeps location d))
  picked.mergeSort (fun a b =>
    strLeB (sortKeyLast b.last_donation) (sortKeyLast a.last_donation))

/-- Donor annotated with the match score and eligibility flag (app.py lines
268-275). -/
structure ScoredDonor where
  donor : Donor
  match_score : Int
  can_donate_now : Bool
deriving DecidableEq

/-- Result record of match_blood_request (app.py lines 286-292). -/
structure MatchResult where
  exact_match_inventory : Int
  compatible_donors : List ScoredDonor
  total_compatible : Nat
  fulfillable : Bool
  remaining_units : Int
deriving DecidableEq

/-- Annotation step of the scoring loop (app.py lines 269-275). -/
def scoreDonor (now : Date) (d : Donor) : ScoredDonor :=
  { donor := d, match_score := calculate_donor_eligibility d now,
    can_donate_now := can_donate d.last_donation now }

/-- Descending comparison on match_score: scored_donors.sort(key=match_score,
reverse=True) of app.py line 278, stable on ties. -/
def scoreDescB (a b : ScoredDonor) : Bool := decide (b.match_score ≤ a.match_score)

/-- match_blood_request (app.py lines 254-292; the same algorithm at
app_aws.py lines 317-340): compatible donors scored and stably sorted by
descending score, truncated to ten, plus the inventory level for the exact
group, the pre-truncation count, the remaining units and the best-effort
fulfillable flag. -/
def match_blood_request (donors : List Donor) (inv : Inventory)
    (request : BloodRequest) (now : Date) : MatchResult :=
  let compatible_donors := get_compatible_donors donors request.blood_group request.location
  let scored_donors := compatible_donors.map (scoreDonor now)
  let sorted := scored_donors.mergeSort scoreDescB
  let inventory_available := invUnits inv request.blood_group
  let remaining_units := request.units_needed - request.fulfilled_units
  { exact_match_inventory := inventory_available,
    compatible_donors := sorted.take 10,
    total_compatible := scored_donors.length,
    fulfillable := decide (remaining_units ≤ inventory_available) ||
      decide (0 < scored_donors.length),
    remaining_units := remaining_units }

/-! Helper lemmas about association-list inventory updates. -/

theorem invLookup_map_bump_self (inv : Inventory) (g : BloodGroup) (f : Int → Int) :
    invLookup (inv.map (bumpEntry g f)) g = (invLookup inv g).map f := by
  induction inv with
  | nil => rfl
  | cons p t ih =>
    by_cases hp : p.1 = g
    · simp [invLookup, bumpEntry, hp]
    · simp [invLookup, bumpEntry, hp, ih]

theorem invLookup_map_bump_other (inv : Inventory) (g g' : BloodGroup) (f : Int → Int)
    (hne : g' ≠ g) :
    invLookup (inv.map (bumpEntry g f)) g' = invLookup inv g' := by
  induction inv with
  | nil => rfl
  | cons p t ih =>
    have hgg' : g ≠ g' := fun h => hne h.symm
    by_cases hp : p.1 = g
    · simp [invLookup, bumpEntry, hp, hgg', hne, ih]
    · by_cases hq : p.1 = g'
      · simp [invLookup, bumpEntry, hp, hq, hne]
      · simp [invLookup, bumpEntry, hp, hq, hne, ih]

theorem invUnits_update_inventory_self (inv : Inventory) (g : BloodGroup) (u : Int)
    (add : Bool) (h : (invLookup inv g).isSome) :
    invUnits (update_inventory inv g u add) g =
      if add then invUnits inv g + u else max 0 (invUnits inv g - u) := by
  obtain ⟨v, hv⟩ := Option.isSome_iff_exists.mp h
  simp [update_inventory, h, invUnits, invLookup_map_bump_self, hv]

theorem invLookup_update_inventory_other (inv : Inventory) (g : BloodGroup) (u : Int)
    (add : Bool) (g' : BloodGroup) (hne : g' ≠ g) :
    invLookup (update_inventory inv g u add) g' = invLookup inv g' := by
  by_cases h : (invLookup inv g).isSome
  · rw [update_inventory, if_pos h]
    exact invLookup_map_bump_other inv g g' _ hne
  · rw [update_inventory, if_neg h]

theorem invNonneg_applyInvOp (inv : Inventory) (op : InvOp) (h : invNonneg inv)
    (hop : opDeltaNonnegB op = true) : invNonneg (applyInvOp inv op) := by
  cases op with
  | add g u =>
    have hu : 0 ≤ u := of_decide_eq_true hop
    simp only [applyInvOp]
    by_cases hg : (invLookup inv g).isSome
    · rw [update_inventory, if_pos hg]
      intro p hp
      rcases List.mem_map.mp hp with ⟨q, hq, rfl⟩
      have hq2 := h q hq
      by_cases hqg : q.1 = g
      · simp [bumpEntry, hqg]
        omega
      · simp [bumpEntry, hqg]
        exact hq2
    · rw [update_inventory, if_neg hg]
      exact h
  | removeClamped g u =>
    simp only [applyInvOp]
    by_cases hg : (invLookup inv g).isSome
    · rw [update_inventory, if_pos hg]
      intro p hp
      rcases List.mem_map.mp hp with ⟨q, hq, rfl⟩
      have hq2 := h q hq
      by_cases hqg : q.1 = g
      · simp [bumpEntry, hqg]
      · simp [bumpEntry, hqg]
        exact hq2
    · rw [update_inventory, if_neg hg]
      exact h
  | ensure g =>
    simp only [applyInvOp]
    split_ifs with hg
    · exact h
    · intro p hp
      rcases List.mem_append.mp hp with hp | hp
      · exact h p hp
      · simp only [List.mem_singleton] at hp
        subst hp
        exact le_refl 0

/-- C3: the two static compatibility tables are mutually consistent, O- is a
universal donor members-wise, and AB+ accepts every group. -/
theorem c3_compatibility_tables_consistent :
    (∀ dg rg : BloodGroup, dg ∈ RECEIVE_COMPATIBILITY rg ↔ rg ∈ BLOOD_COMPATIBILITY dg) ∧
    (∀ rg : BloodGroup, Oneg ∈ RECEIVE_COMPATIBILITY rg) ∧
    (∀ dg : BloodGroup, dg ∈ RECEIVE_COMPATIBILITY ABpos) := by
  refine ⟨?_, ?_, ?_⟩ <;> decide

/-- C7: can_donate returns true when the stored date is null, empty or
unparseable, and otherwise returns true exactly when at least 56 days have
elapsed (so exactly 56 days yields true and 55 yields false). -/
theorem c7_can_donate_rule (last : Option String) (now : Date) :
    (last = none → can_donate last now = true) ∧
    (∀ s, last = some s → parseDate s = none → can_donate last now = true) ∧
    (∀ s d, last = some s → parseDate s = some d →
      (can_donate last now = true ↔ 56 ≤ daysSince now d)) := by
  refine ⟨fun h => by rw [h]; rfl, fun s hs hp => ?_, fun s d hs hp => ?_⟩
  · subst hs
    by_cases he : strFalsy s = true <;> simp [can_donate, he, hp]
  · subst hs
    have hne : strFalsy s = false := by
      cases hsf : strFalsy s
      · rfl
      · exfalso
        have hs0 : s = "" := by
          cases s with
          | mk data =>
            cases data with
            | nil => rfl
            | cons a as => simp [strFalsy] at hsf
        rw [hs0] at hp
        exact Option.noConfusion hp
    simp [can_donate, hne, hp]

theorem c7_witness :
    can_donate (some "2024-01-01") ⟨2024, 3, 1⟩ = true ↔
      56 ≤ daysSince ⟨2024, 3, 1⟩ ⟨2024, 1, 1⟩ :=
  (c7_can_donate_rule (some "2024-01-01") ⟨2024, 3, 1⟩).2.2 "2024-01-01" ⟨2024, 1, 1⟩ rfl
    (by decide)

/-- C8 counterexample: exactly 56 days separate 2024-01-01 and 2024-02-26, so
the inclusive cooldown test days >= 56 makes can_donate return true, not false
as the claim's test vector states. -/
theorem c8_counterexample :
    can_donate (some "2024-01-01") ⟨2024, 2, 26⟩ = true := by decide

/-- C8 amended: with now = 2024-02-26, canDonateNow("2024-01-01") returns true:
the elapsed time is exactly 56 days and the code's threshold days >= 56 is
inclusive; one day fewer (last donation 2024-01-02) yields false. -/
theorem c8_amended_boundary :
    daysSince ⟨2024, 2, 26⟩ ⟨2024, 1, 1⟩ = 56 ∧
    can_donate (some "2024-01-01") ⟨2024, 2, 26⟩ = true ∧
    daysSince ⟨2024, 2, 26⟩ ⟨2024, 1, 2⟩ = 55 ∧
    can_donate (some "2024-01-02") ⟨2024, 2, 26⟩ = false := by
  refine ⟨by decide, by decide, by decide, by decide⟩

/-- C9 counterexample: for a donor whose last_donation is the empty string the
code takes the Python-falsy branch and grants the +10 new-donor bonus (score
120), while the claim's formula (bonus only for null) gives 110. -/
theorem c9_counterexample :
    calculate_donor_eligibility emptyLastDonor ⟨2025, 1, 1⟩ = 120 ∧
    eligibilityScoreClaim emptyLastDonor ⟨2025, 1, 1⟩ = 110 ∧
    calculate_donor_eligibility emptyLastDonor ⟨2025, 1, 1⟩ ≠
      eligibilityScoreClaim emptyLastDonor ⟨2025, 1, 1⟩ := by
  refine ⟨by decide, by decide, by decide⟩

/-- C9 amended: the eligibility score equals the claim's formula with the +10
bonus keyed on last_donation being null or empty (Python falsiness); the two
last-donation bonuses are mutually exclusive by the shape of that formula, and
the clamp keeps every score within 0..150. -/
theorem c9_amended_score_formula (d : Donor) (now : Date) :
    calculate_donor_eligibility d now = eligibilityScoreAmended d now ∧
    0 ≤ calculate_donor_eligibility d now ∧
    calculate_donor_eligibility d now ≤ 150 := by
  obtain ⟨id, bg, av, st, ci, sta, age, ld, td⟩ := d
  cases ld with
  | none =>
    simp only [calculate_donor_eligibility, eligibilityScoreAmended]
    refine ⟨?_, ?_, ?_⟩ <;> (split_ifs <;> omega)
  | some s =>
    cases hsf : strFalsy s with
    | true =>
      simp only [calculate_donor_eligibility, eligibilityScoreAmended, hsf, if_true]
      refine ⟨?_, ?_, ?_⟩ <;> (split_ifs <;> omega)
    | false =>
      cases hpd : parseDate s with
      | none =>
        simp only [calculate_donor_eligibility, eligibilityScoreAmended, hsf, hpd,
          Bool.false_eq_true, if_false]
        refine ⟨?_, ?_, ?_⟩ <;> (split_ifs <;> omega)
      | some last =>
        simp only [calculate_donor_eligibility, eligibilityScoreAmended, hsf, hpd,
          Bool.false_eq_true, if_false]
        refine ⟨?_, ?_, ?_⟩ <;> (split_ifs <;> omega)

/-- C1 counterexample: crediting 0 units to a pending request with no
fulfilled units makes the code set status "partial" on every credit path,
while the claim's rule keeps it "pending". -/
theorem c1_counterexample :
    (creditRequest pendingReq5 0).status = "partial" ∧
    claimStatusRule pendingReq5.units_needed (pendingReq5.fulfilled_units + 0)
        pendingReq5.status = "pending" ∧
    (creditRequest pendingReq5 0).status ≠
      claimStatusRule pendingReq5.units_needed (pendingReq5.fulfilled_units + 0)
        pendingReq5.status := by
  refine ⟨by decide, by decide, by decide⟩

/-- C1 amended: after a non-negative credit on any of the three paths the
status is "fulfilled" exactly when units_needed - fulfilled_units <= 0 and
"partial" otherwise; the pending status is never retained, even by a zero
credit to a request with fulfilled_units = 0. -/
theorem c1_amended_status_rule (r : BloodRequest) (d : Int) (inv : Inventory)
    (hd : 0 ≤ d) :
    ((creditRequest r d).status = "fulfilled" ↔
      r.units_needed - (r.fulfilled_units + d) ≤ 0) ∧
    ((creditRequest r d).status = "partial" ↔
      ¬ r.units_needed - (r.fulfilled_units + d) ≤ 0) ∧
    (creditRequest r d).status ≠ "pending" ∧
    (∀ b, (confirmRequestUpdate r d b).status = (creditRequest r d).status) ∧
    (d ≤ invUnits inv r.blood_group →
      (use_inventory_for_request inv r d).1.2.status = (creditRequest r d).status ∧
      (use_inventory_for_request inv r d).2 = none) ∧
    (fulfill_request inv r d).2.status = (creditRequest r d).status := by
  refine ⟨?_, ?_, ?_, ?_, fun hok => ⟨?_, ?_⟩, ?_⟩
  · simp only [creditRequest]
    split_ifs with h <;> simp [h]
  · simp only [creditRequest]
    split_ifs with h <;> simp [h]
  · simp only [creditRequest]
    split_ifs with h <;> simp
  · intro b
    cases b <;> simp [confirmRequestUpdate]
  · simp only [use_inventory_for_request]
    rw [if_neg (not_lt.mpr hok)]
  · simp only [use_inventory_for_request]
    rw [if_neg (not_lt.mpr hok)]
  · simp only [fulfill_request, creditRequest]
    have : r.units_needed ≤ r.fulfilled_units + d ↔
        r.units_needed - (r.fulfilled_units + d) ≤ 0 := by omega
    split_ifs with h1 h2 <;> simp_all

theorem c1_witness :
    (creditRequest pendingReq5 3).status = "fulfilled" ↔
      pendingReq5.units_needed - (pendingReq5.fulfilled_units + 3) ≤ 0 :=
  (c1_amended_status_rule pendingReq5 3 [] (by decide)).1

/-- C2 counterexample: request_blood accepts units_needed = 0; the resulting
reachable request is pending although fulfilled_units (0) >= units_needed (0),
so the claimed invariant fails on it. -/
theorem c2_counterexample :
    ReqReachable (freshRequest Apos 0 "normal" "") ∧
    ¬ ((freshRequest Apos 0 "normal" "").status = "fulfilled" ↔
        (freshRequest Apos 0 "normal" "").units_needed ≤
          (freshRequest Apos 0 "normal" "").fulfilled_units) :=
  ⟨ReqReachable.create Apos 0 "normal" "", by decide⟩

/-- C2 amended: for every reachable request whose units_needed is at least 1,
status = "fulfilled" holds exactly when fulfilled_units >= units_needed; the
invariant can only fail for degenerate requests created by request_blood with
units_needed <= 0, which it does not validate. -/
theorem c2_amended_fulfilled_invariant (r : BloodRequest) (hr : ReqReachable r)
    (hpos : 1 ≤ r.units_needed) :
    r.status = "fulfilled" ↔ r.units_needed ≤ r.fulfilled_units := by
  cases hr with
  | create g needed urg loc =>
    simp only [freshRequest] at hpos ⊢
    constructor
    · intro h
      exact absurd h (by decide)
    · intro h
      omega
  | withdraw g units h =>
    simp [withdrawalRequest]
  | confirm r d b hr _ =>
    cases b <;>
      · simp only [confirmRequestUpdate, creditRequest]
        split_ifs with h <;> simp <;> omega
  | useInventory r d inv hr hd hok =>
    simp only [use_inventory_for_request]
    rw [if_neg (not_lt.mpr hok)]
    simp only [creditRequest]
    split_ifs with h <;> simp <;> omega
  | legacy r d inv hr _ =>
    simp only [fulfill_request]
    split_ifs with h <;> simp <;> omega

theorem c2_witness :
    (withdrawalRequest Apos 1).status = "fulfilled" ↔
      (withdrawalRequest Apos 1).units_needed ≤ (withdrawalRequest Apos 1).fulfilled_units :=
  c2_amended_fulfilled_invariant (withdrawalRequest Apos 1)
    (ReqReachable.withdraw Apos 1 (by decide)) (by decide)

/-- C5: with a known blood group and positive units, take_from_inventory fails
leaving every store untouched when units exceed the stock, and otherwise
debits exactly the requested units from that group (other groups untouched),
appends a fulfilled inventory_withdrawal request with fulfilled_units =
units_needed, appends a completed donation from the INVENTORY sentinel donor,
and bumps the requestor counter. -/
theorem c5_withdraw_from_inventory (st : WithdrawState) (g : BloodGroup) (units : Int)
    (hvalid : (invLookup st.inventory g).isSome) (hpos : 0 < units) :
    (invUnits st.inventory g < units →
      take_from_inventory st g units = (st, some "insufficient inventory")) ∧
    (units ≤ invUnits st.inventory g →
      (take_from_inventory st g units).2 = none ∧
      invUnits (take_from_inventory st g units).1.inventory g =
        invUnits st.inventory g - units ∧
      (∀ g', g' ≠ g →
        invLookup (take_from_inventory st g units).1.inventory g' =
          invLookup st.inventory g') ∧
      (take_from_inventory st g units).1.requests =
        st.requests ++ [withdrawalRequest g units] ∧
      (withdrawalRequest g units).status = "fulfilled" ∧
      (withdrawalRequest g units).reqType = some "inventory_withdrawal" ∧
      (withdrawalRequest g units).fulfilled_units =
        (withdrawalRequest g units).units_needed ∧
      (take_from_inventory st g units).1.donations =
        st.donations ++ [{ donor_id := "INVENTORY", blood_group := g, units := units,
                           status := some "completed" }] ∧
      (take_from_inventory st g units).1.requestor.total_requests =
        st.requestor.total_requests + 1) := by
  obtain ⟨v, hv⟩ := Option.isSome_iff_exists.mp hvalid
  have h1 : ¬ ((invLookup st.inventory g).isNone = true) := by
    rw [Option.isNone_iff_eq_none, hv]
    exact fun h => Option.noConfusion h
  have h2 : ¬ (units ≤ 0) := by omega
  constructor
  · intro hlt
    rw [take_from_inventory, if_neg h1, if_neg h2, if_pos hlt]
  · intro hle
    have h3 : ¬ (invUnits st.inventory g < units) := not_lt.mpr hle
    rw [take_from_inventory, if_neg h1, if_neg h2, if_neg h3]
    refine ⟨rfl, ?_, ?_, rfl, rfl, rfl, rfl, rfl, rfl⟩
    · have h4 := invUnits_update_inventory_self st.inventory g units false hvalid
      simp only [Bool.false_eq_true, if_false] at h4
      show invUnits (update_inventory st.inventory g units false) g =
        invUnits st.inventory g - units
      rw [h4]
      omega
    · intro g' hg'
      show invLookup (update_inventory st.inventory g units false) g' =
        invLookup st.inventory g'
      exact invLookup_update_inventory_other st.inventory g units false g' hg'

theorem c5_witness :
    take_from_inventory wst0 Oneg 15 = (wst0, some "insufficient inventory") :=
  (c5_withdraw_from_inventory wst0 Oneg 15 (by decide) (by decide)).1 (by decide)

/-- C6: starting from a componentwise non-negative inventory, any sequence of
the application's inventory mutations whose addition deltas are non-negative
leaves every blood group's unit count non-negative: additions only grow an
entry and every subtraction path clamps at zero. -/
theorem c6_inventory_nonneg (ops : List InvOp) (inv : Inventory) (h0 : invNonneg inv)
    (hops : ∀ op ∈ ops, opDeltaNonnegB op = true) :
    invNonneg (ops.foldl applyInvOp inv) := by
  induction ops generalizing inv with
  | nil => exact h0
  | cons op t ih =>
    rw [List.foldl_cons]
    exact ih (applyInvOp inv op)
      (invNonneg_applyInvOp inv op h0 (hops op (List.mem_cons_self op t)))
      (fun o ho => hops o (List.mem_cons_of_mem op ho))

theorem c6_witness :
    invNonneg ([InvOp.add Apos 5, InvOp.removeClamped Apos 7,
        InvOp.ensure Bneg].foldl applyInvOp [(Apos, 1)]) :=
  c6_inventory_nonneg _ _
    (by decide : ∀ p ∈ ([(Apos, (1 : Int))] : Inventory), 0 ≤ p.2)
    (by decide)

theorem lookupA_updateA_self {α : Type} (l : List (String × α)) (k : String) (f : α → α) :
    lookupA (updateA l k f) k = (lookupA l k).map f := by
  induction l with
  | nil => rfl
  | cons p t ih =>
    by_cases hp : p.1 = k
    · simp [lookupA, updateA, hp]
    · simp only [updateA] at ih ⊢
      simp [lookupA, hp, ih]

/-- C10: donor_confirm_donation enforces no 56-day cooldown: whenever the
assignment, its donor and its request all exist it succeeds with every side
effect (assignment completed, request credited, donor stats updated, donation
appended, inventory clamp-debited) even though can_donate is false for the
donor now; the same donor is rejected by donate_to_inventory and by the
direct record_donation route, the only paths that check can_donate. -/
theorem c10_no_cooldown_on_confirm (st : SysState) (aid : String)
    (units_form : Option Int) (now : Date) (asg : Assignment) (donor : Donor)
    (req : BloodRequest) (hasg : lookupA st.assignments aid = some asg)
    (hdon : lookupA st.donors asg.donor_id = some donor)
    (hreq : lookupA st.requests asg.request_id = some req)
    (hcool : can_donate donor.last_donation now = false) :
    ((donor_confirm_donation st aid units_form now).2 = none ∧
     lookupA (donor_confirm_donation st aid units_form now).1.assignments aid =
       some { asg with status := "completed",
                       units_donated := some (units_form.getD asg.units_offered) } ∧
     lookupA (donor_confirm_donation st aid units_form now).1.requests asg.request_id =
       some (confirmRequestUpdate req (units_form.getD asg.units_offered)
         ((invLookup st.inventory donor.blood_group).isSome)) ∧
     lookupA (donor_confirm_donation st aid units_form now).1.donors asg.donor_id =
       some { donor with last_donation := some (formatDate now),
                         total_donations := donor.total_donations + 1 } ∧
     (donor_confirm_donation st aid units_form now).1.donations =
       st.donations ++ [{ donor_id := asg.donor_id, blood_group := donor.blood_group,
                          units := units_form.getD asg.units_offered,
                          status := some "completed" }] ∧
     ((invLookup st.inventory donor.blood_group).isSome →
       invUnits (donor_confirm_donation st aid units_form now).1.inventory
           donor.blood_group =
         max 0 (invUnits st.inventory donor.blood_group -
           units_form.getD asg.units_offered))) ∧
    donate_to_inventory st asg.donor_id (units_form.getD asg.units_offered) now =
      (st, some "You must wait 56 days between donations!") ∧
    record_donation st asg.donor_id (units_form.getD asg.units_offered) now =
      (st, some "You must wait 56 days between donations!") := by
  have hstep : donor_confirm_donation st aid units_form now =
      ({ donors := updateA st.donors asg.donor_id (fun _ =>
            { donor with last_donation := some (formatDate now),
                         total_donations := donor.total_donations + 1 }),
         requests := updateA st.requests asg.request_id (fun _ =>
            confirmRequestUpdate req (units_form.getD asg.units_offered)
              ((invLookup st.inventory donor.blood_group).isSome)),
         assignments := updateA st.assignments aid (fun _ =>
            { asg with status := "completed",
                       units_donated := some (units_form.getD asg.units_offered) }),
         donations := st.donations ++
           [{ donor_id := asg.donor_id, blood_group := donor.blood_group,
              units := units_form.getD asg.units_offered, status := some "completed" }],
         inventory := update_inventory st.inventory donor.blood_group
            (units_form.getD asg.units_offered) false }, none) := by
    simp only [donor_confirm_donation, hasg, hdon, hreq]
  refine ⟨⟨?_, ?_, ?_, ?_, ?_, ?_⟩, ?_, ?_⟩
  · rw [hstep]
  · rw [hstep]
    simp [lookupA_updateA_self, hasg]
  · rw [hstep]
    simp [lookupA_updateA_self, hreq]
  · rw [hstep]
    simp [lookupA_updateA_self, hdon]
  · rw [hstep]
  · intro hinv
    rw [hstep]
    have h4 := invUnits_update_inventory_self st.inventory donor.blood_group
      (units_form.getD asg.units_offered) false hinv
    simp only [Bool.false_eq_true, if_false] at h4
    exact h4
  · simp only [donate_to_inventory, hdon, hcool]
    simp
  · simp only [record_donation, hdon, hcool]
    simp

theorem c10_witness :
    (donor_confirm_donation st10 "A1" none ⟨2024, 1, 11⟩).2 = none :=
  (c10_no_cooldown_on_confirm st10 "A1" none ⟨2024, 1, 11⟩ asgA1 donorD1
    (freshRequest Apos 5 "high" "") (by decide) (by decide) (by decide) (by decide)).1.1

theorem scoreDescB_trans (a b c : ScoredDonor) (hab : scoreDescB a b = true)
    (hbc : scoreDescB b c = true) : scoreDescB a c = true := by
  simp only [scoreDescB, decide_eq_true_eq] at hab hbc ⊢
  omega

theorem scoreDescB_total (a b : ScoredDonor) : (scoreDescB a b || scoreDescB b a) = true := by
  simp only [scoreDescB, Bool.or_eq_true, decide_eq_true_eq]
  omega

theorem mergeSort_scoreDesc_filter (l : List ScoredDonor) (v : Int) :
    (l.mergeSort scoreDescB).filter (fun x => x.match_score == v) =
      l.filter (fun x => x.match_score == v) := by
  have hperm := List.mergeSort_perm l scoreDescB
  have hpairF : (l.filter (fun x => x.match_score == v)).Pairwise
      (fun a b => scoreDescB a b = true) := by
    apply List.pairwise_of_forall_mem_list
    intro a ha b hb
    have ha2 := (List.mem_filter.mp ha).2
    have hb2 := (List.mem_filter.mp hb).2
    simp only [beq_iff_eq] at ha2 hb2
    simp [scoreDescB, ha2, hb2]
  have hsub : (l.filter (fun x => x.match_score == v)).Sublist (l.mergeSort scoreDescB) :=
    List.sublist_mergeSort scoreDescB_trans scoreDescB_total hpairF (List.filter_sublist l)
  have hself : (l.filter (fun x => x.match_score == v)).filter
      (fun x => x.match_score == v) = l.filter (fun x => x.match_score == v) :=
    List.filter_eq_self.mpr (fun a ha => (List.mem_filter.mp ha).2)
  have hsub2 : (l.filter (fun x => x.match_score == v)).Sublist
      ((l.mergeSort scoreDescB).filter (fun x => x.match_score == v)) := by
    rw [← hself]
    exact List.Sublist.filter _ hsub
  have hlen : ((l.mergeSort scoreDescB).filter (fun x => x.match_score == v)).length =
      (l.filter (fun x => x.match_score == v)).length :=
    (hperm.filter _).length_eq
  exact (hsub2.eq_of_length hlen.symm).symm

/-- C4: match_blood_request returns exactly the donors found by
get_compatible_donors, each annotated with its eligibility score and
can_donate_now flag, sorted by score descending with ties in their pre-sort
order (a stable sort, characterised by the permutation, sortedness and
filter-preservation facts) and truncated to the first ten; total_compatible
counts all compatible donors before truncation; remaining_units is
units_needed - fulfilled_units; exact_match_inventory is the stock of the
request's exact group (0 when absent, by the definition of invUnits); and
fulfillable holds exactly when that stock covers the remaining units or some
compatible donor exists. -/
theorem c4_match_blood_request (donors : List Donor) (inv : Inventory)
    (request : BloodRequest) (now : Date) :
    ∃ sorted : List ScoredDonor,
      sorted.Perm ((get_compatible_donors donors request.blood_group
        request.location).map (scoreDonor now)) ∧
      sorted.Pairwise (fun a b => b.match_score ≤ a.match_score) ∧
      (∀ v : Int, sorted.filter (fun x => x.match_score == v) =
        ((get_compatible_donors donors request.blood_group request.location).map
          (scoreDonor now)).filter (fun x => x.match_score == v)) ∧
      (∀ x ∈ sorted, x.match_score = calculate_donor_eligibility x.donor now ∧
        x.can_donate_now = can_donate x.donor.last_donation now) ∧
      (match_blood_request donors inv request now).compatible_donors = sorted.take 10 ∧
      (match_blood_request donors inv request now).total_compatible =
        ((get_compatible_donors donors request.blood_group request.location).map
          (scoreDonor now)).length ∧
      (match_blood_request donors inv request now).remaining_units =
        request.units_needed - request.fulfilled_units ∧
      (match_blood_request donors inv request now).exact_match_inventory =
        invUnits inv request.blood_group ∧
      ((match_blood_request donors inv request now).fulfillable = true ↔
        (request.units_needed - request.fulfilled_units ≤ invUnits inv request.blood_group ∨
          0 < ((get_compatible_donors donors request.blood_group request.location).map
            (scoreDonor now)).length)) := by
  refine ⟨((get_compatible_donors donors request.blood_group request.location).map
      (scoreDonor now)).mergeSort scoreDescB,
    List.mergeSort_perm _ scoreDescB, ?_, fun v => mergeSort_scoreDesc_filter _ v,
    ?_, rfl, rfl, rfl, ?_⟩
  · refine (List.sorted_mergeSort scoreDescB_trans scoreDescB_total _).imp ?_
    intro a b hab
    simpa [scoreDescB] using hab
  · intro x hx
    have hx2 := (List.mergeSort_perm _ scoreDescB).mem_iff.mp hx
    rcases List.mem_map.mp hx2 with ⟨d, hd, rfl⟩
    exact ⟨rfl, rfl⟩
  · simp only [match_blood_request, Bool.or_eq_true, decide_eq_true_eq]
    exact ⟨trivial, trivial⟩
